import Mathlib

/-!
Shallow embedding of the SpecGenie core (`app.py`): the three text-processing
functions `generate_user_stories`, `extract_entities`, `generate_risks`, and the
session-precondition checks of the `results` and `export_stories_pdf` routes.
Strings are modelled through their character lists; Python's `re.split(r'[.\n]+', s)`,
`str.strip()`, `str.lower()`, `str.capitalize()`, the anchored filler-removing
`re.sub`, and substring containment (`in`) are each given explicit executable
definitions below.
-/

/-- Characters on which `re.split(r'[.\n]+', ...)` splits: a period or a newline. -/
def isDelim (c : Char) : Bool := c == '.' || c == '\n'

/-- ASCII whitespace stripped by Python's `str.strip()`. -/
def isPySpace (c : Char) : Bool :=
  c == ' ' || c == '\t' || c == '\n' || c == '\r' || c == Char.ofNat 11 || c == Char.ofNat 12

/-- One pass of `re.split(r'[.\n]+', s)`: `cur` holds the current segment reversed,
`inRun` records whether the previous character was a delimiter (so that a run of
delimiters produces a single split point). -/
def splitDotsGo : List Char → List Char → Bool → List (List Char)
  | [], cur, _ => [cur.reverse]
  | c :: cs, cur, inRun =>
    if isDelim c then
      if inRun then splitDotsGo cs cur true
      else cur.reverse :: splitDotsGo cs [] true
    else
      splitDotsGo cs (c :: cur) false

/-- `re.split(r'[.\n]+', s)` as a list of character lists. -/
def reSplitDots (s : String) : List (List Char) := splitDotsGo s.data [] false

/-- Python `str.strip()`: drop whitespace from both ends. -/
def pyStrip (l : List Char) : List Char :=
  ((l.dropWhile isPySpace).reverse.dropWhile isPySpace).reverse

/-- Python `str.lower()` (the source text and all table keywords are ASCII). -/
def pyLower (l : List Char) : List Char := l.map Char.toLower

/-- Python `str.capitalize()`: upper-case the first character, lower-case the rest. -/
def pyCapitalize (s : String) : String :=
  match s.data with
  | [] => ""
  | c :: cs => (Char.toUpper c :: cs.map Char.toLower).asString

/-- The filler alternatives of the anchored `re.sub` in `generate_user_stories`,
in the order the regex alternation tries them. -/
def fillers : List (List Char) :=
  [("the system should ").data, ("the app should ").data, ("users can ").data,
   ("the user can ").data, ("it should ").data, ("should ").data]

/-- `re.sub(r'^(the system should |...|should )', '', action)`: the `^` anchor means
at most one leading filler is removed, the first alternative matching at position 0. -/
def stripFiller (l : List Char) : List Char :=
  match fillers.find? (fun p => l.take p.length == p) with
  | some p => l.drop p.length
  | none => l

/-- Substring containment, Python's `pat in hay`. -/
def hasSub (hay pat : List Char) : Bool :=
  match hay with
  | [] => pat.isEmpty
  | c :: t => ((c :: t).take pat.length == pat) || hasSub t pat

/-- The body of the sentence loop of `generate_user_stories`: strip the sentence,
drop it when shorter than 10 characters, otherwise lower-case it, remove one
leading filler and wrap it in the story template. -/
def story_of_sentence (sentence : List Char) : Option String :=
  if (pyStrip sentence).length < 10 then none
  else
    some ((("As a user, I want to ").data ++ stripFiller (pyLower (pyStrip sentence)) ++
      (" so that I can accomplish my goals efficiently.").data).asString)

/-- `generate_user_stories` from `app.py`. -/
def generate_user_stories (description : String) : List String :=
  if ((reSplitDots description).filterMap story_of_sentence).isEmpty then
    ["As a user, I want to use the system so that I can accomplish my tasks."]
  else (reSplitDots description).filterMap story_of_sentence

/-- An entity of the UML-like view: a name and its canned responsibilities. -/
structure Entity where
  entity : String
  responsibilities : String
deriving DecidableEq

/-- The `entity_patterns` table of `extract_entities`, in source (insertion) order. -/
def entity_patterns : List (String × String) :=
  [("user", "Authenticate, view content, perform actions, manage profile"),
   ("admin", "Manage users, configure system, view reports, moderate content"),
   ("customer", "Browse products, place orders, track deliveries, leave reviews"),
   ("order", "Store order details, track status, calculate totals, manage items"),
   ("product", "Store product info, manage inventory, display details, handle pricing"),
   ("system", "Process requests, manage data, handle errors, provide services"),
   ("database", "Store data, handle queries, ensure integrity, manage backups"),
   ("payment", "Process transactions, validate cards, handle refunds, generate receipts"),
   ("report", "Aggregate data, generate visualizations, export formats, schedule delivery"),
   ("notification", "Send alerts, manage preferences, track delivery, handle templates"),
   ("project", "Store project info, track progress, manage members, handle deadlines"),
   ("task", "Track status, assign owners, set deadlines, manage dependencies"),
   ("file", "Store content, manage versions, handle uploads, control access"),
   ("message", "Store content, track read status, manage threads, handle attachments"),
   ("account", "Manage credentials, track activity, handle permissions, store preferences"),
   ("inventory", "Track quantities, manage locations, handle transfers, set alerts"),
   ("category", "Organize items, manage hierarchy, handle relationships, enable filtering"),
   ("review", "Store ratings, manage comments, track helpfulness, moderate content"),
   ("cart", "Manage items, calculate totals, handle quantities, persist session"),
   ("shipping", "Calculate costs, track packages, manage addresses, handle returns")]

/-- The keyword scan of `extract_entities`: one Entity per table keyword occurring
in the lower-cased description, in table order. -/
def extract_entities_matches (description : String) : List Entity :=
  entity_patterns.filterMap (fun p =>
    if hasSub (pyLower description.data) p.1.data then
      some ⟨pyCapitalize p.1, p.2⟩
    else none)

/-- `extract_entities` from `app.py`. -/
def extract_entities (description : String) : List Entity :=
  if (extract_entities_matches description).isEmpty then
    [⟨"System", "Handle core business logic and user interactions"⟩]
  else extract_entities_matches description

/-- A risk entry: description, impact and likelihood (the source stores the two
levels as the strings High, Medium, Low). -/
structure Risk where
  risk : String
  impact : String
  likelihood : String
deriving DecidableEq

/-- The three `generic_risks` always present, in source order. -/
def generic_risks : List Risk :=
  [⟨"Performance issues with large datasets", "Medium", "Medium"⟩,
   ⟨"Security vulnerabilities in user input handling", "High", "Medium"⟩,
   ⟨"Insufficient error handling causing poor user experience", "Medium", "High"⟩]

/-- The `keyword_risks` table of `generate_risks`, in source (insertion) order. -/
def keyword_risks : List (String × Risk) :=
  [("payment", ⟨"Payment gateway integration failure", "High", "Low"⟩),
   ("user data", ⟨"User data privacy and GDPR compliance issues", "High", "Medium"⟩),
   ("password", ⟨"Weak password storage leading to data breach", "High", "Medium"⟩),
   ("upload", ⟨"Malicious file upload vulnerability", "High", "Medium"⟩),
   ("api", ⟨"API rate limiting and availability issues", "Medium", "Medium"⟩),
   ("database", ⟨"Database corruption or data loss", "High", "Low"⟩),
   ("real-time", ⟨"Real-time synchronization failures", "Medium", "Medium"⟩),
   ("notification", ⟨"Notification delivery failures or spam issues", "Low", "Medium"⟩),
   ("third-party", ⟨"Third-party service dependency and downtime", "Medium", "Medium"⟩),
   ("mobile", ⟨"Cross-platform compatibility issues", "Medium", "High"⟩)]

/-- `generate_risks` from `app.py`: the fixed baseline followed by one appended
risk per table keyword contained in the lower-cased description, in table order. -/
def generate_risks (description : String) : List Risk :=
  generic_risks ++ keyword_risks.filterMap (fun p =>
    if hasSub (pyLower description.data) p.1.data then some p.2 else none)

/-- The record `analyze` stores in the session. -/
structure AnalysisRecord where
  description : String
  user_stories : List String
  entities : List Entity
  risks : List Risk
deriving DecidableEq

/-- Responses the modelled routes can produce. -/
inductive RouteResponse where
  | redirectIndex : RouteResponse
  | renderResults : AnalysisRecord → RouteResponse
  | pdfDownload : List String → RouteResponse
deriving DecidableEq

/-- The `results` route: render the stored analysis, or redirect to the index page
when the session holds none. -/
def results (sess : Option AnalysisRecord) : RouteResponse :=
  match sess with
  | none => RouteResponse.redirectIndex
  | some a => RouteResponse.renderResults a

/-- The `export_stories_pdf` route: redirect to the index page when the session
holds no stories (Python's falsiness also treats an empty list as absent),
otherwise emit one line per story. -/
def export_stories_pdf (stories : Option (List String)) : RouteResponse :=
  match stories with
  | none => RouteResponse.redirectIndex
  | some [] => RouteResponse.redirectIndex
  | some ss => RouteResponse.pdfDownload (ss.map (fun s => "- " ++ s))

/-- Every character of a segment produced by `splitDotsGo` comes from the remaining
input or from the accumulator. -/
lemma splitDotsGo_mem_chars :
    ∀ l : List Char, ∀ (cur : List Char) (b : Bool) (seg : List Char),
      seg ∈ splitDotsGo l cur b → ∀ c ∈ seg, c ∈ l ∨ c ∈ cur := by
  intro l
  induction l with
  | nil =>
    intro cur b seg hseg c hc
    simp only [splitDotsGo, List.mem_singleton] at hseg
    subst hseg
    exact Or.inr (List.mem_reverse.mp hc)
  | cons a t ih =>
    intro cur b seg hseg c hc
    unfold splitDotsGo at hseg
    by_cases hd : isDelim a
    · rw [if_pos hd] at hseg
      cases b with
      | true =>
        simp only [if_true] at hseg
        rcases ih cur true seg hseg c hc with h1 | h1
        · exact Or.inl (List.mem_cons_of_mem a h1)
        · exact Or.inr h1
      | false =>
        simp only [Bool.false_eq_true, if_false, List.mem_cons] at hseg
        rcases hseg with hseg | hseg
        · subst hseg
          exact Or.inr (List.mem_reverse.mp hc)
        · rcases ih [] true seg hseg c hc with h1 | h1
          · exact Or.inl (List.mem_cons_of_mem a h1)
          · cases h1
    · rw [if_neg hd] at hseg
      rcases ih (a :: cur) false seg hseg c hc with h1 | h1
      · exact Or.inl (List.mem_cons_of_mem a h1)
      · rcases List.mem_cons.mp h1 with h2 | h2
        · exact Or.inl (h2 ▸ List.mem_cons_self a t)
        · exact Or.inr h2

/-- Stripping a string that consists only of whitespace leaves nothing. -/
lemma pyStrip_eq_nil (l : List Char) (h : ∀ c ∈ l, isPySpace c = true) : pyStrip l = [] := by
  unfold pyStrip
  rw [List.dropWhile_eq_nil_iff.mpr h]
  rfl

/-- The keyword scan of `generate_risks` written as filter-then-project. -/
lemma keyword_scan_eq_filter_map (dl : List Char) :
    ∀ l : List (String × Risk),
      (l.filterMap fun p => if hasSub dl p.1.data then some p.2 else none) =
        (l.filter fun p => hasSub dl p.1.data).map Prod.snd := by
  intro l
  induction l with
  | nil => simp
  | cons p t ih =>
    by_cases hq : hasSub dl p.1.data
    · simp [List.filterMap_cons, List.filter_cons, hq, ih]
    · simp [List.filterMap_cons, List.filter_cons, hq, ih]

/-- The keyword scan never repeats a risk that no table entry repeats. -/
lemma count_keyword_scan_zero (r : Risk) (dl : List Char) :
    ∀ l : List (String × Risk), (∀ p ∈ l, p.2 ≠ r) →
      ((l.filterMap fun p => if hasSub dl p.1.data then some p.2 else none).count r) = 0 := by
  intro l
  induction l with
  | nil => intro _; simp
  | cons p t ih =>
    intro h
    have ht := ih (fun x hx => h x (List.mem_cons_of_mem p hx))
    by_cases hq : hasSub dl p.1.data
    · have hne : p.2 ≠ r := h p (List.mem_cons_self p t)
      simp [List.filterMap_cons, hq, List.count_cons, hne, Ne.symm hne, ht]
    · simp [List.filterMap_cons, hq, ht]

/-- All thirteen table risks are pairwise distinct, so the output of
`generate_risks` never holds the same risk twice. -/
lemma generate_risks_nodup (d : String) : (generate_risks d).Nodup := by
  have hsub : List.Sublist (generate_risks d) (generic_risks ++ keyword_risks.map Prod.snd) := by
    unfold generate_risks
    rw [keyword_scan_eq_filter_map]
    exact ((List.filter_sublist keyword_risks).map Prod.snd).append_left generic_risks
  exact (by decide : (generic_risks ++ keyword_risks.map Prod.snd).Nodup).sublist hsub

/-- C1 (counterexample): on the demo-like input the second story is NOT built from
the action "upload files." with a trailing period — the split on `[.\n]+` consumes
the final period, so the action is "upload files". -/
theorem demo_input_stories_counterexample :
    generate_user_stories "The system should allow login. Users can upload files." ≠
      ["As a user, I want to allow login so that I can accomplish my goals efficiently.",
       "As a user, I want to upload files. so that I can accomplish my goals efficiently."] := by
  decide

/-- C1 (amended): on the input "The system should allow login. Users can upload files.",
generate_user_stories returns exactly two stories in source order, the first from the
action "allow login" (filler "the system should " stripped) and the second from the
action "upload files" (filler "users can " stripped, the trailing period consumed by
the sentence split), each wrapped in the fixed template. -/
theorem demo_input_stories :
    generate_user_stories "The system should allow login. Users can upload files." =
      ["As a user, I want to allow login so that I can accomplish my goals efficiently.",
       "As a user, I want to upload files so that I can accomplish my goals efficiently."] := by
  decide

/-- C2 (counterexample): duplicate risk entries are NOT possible in the output of
generate_risks — for no input does the result list repeat an entry, because the
thirteen table risks are pairwise distinct. -/
theorem risks_duplicates_impossible :
    ¬ ∃ d : String, ¬ (generate_risks d).Nodup := by
  rintro ⟨d, hd⟩
  exact hd (generate_risks_nodup d)

/-- C2 (amended): generate_risks appends one keyword-triggered risk for each table
keyword found as a substring, in table order, with no deduplication step and no cap
on the total count; however, since all table entries are pairwise distinct, duplicate
risk entries never actually occur in the output. -/
theorem risks_append_per_keyword (d : String) :
    generate_risks d =
      generic_risks ++
        (keyword_risks.filter (fun p => hasSub (pyLower d.data) p.1.data)).map Prod.snd ∧
      (generate_risks d).Nodup := by
  refine ⟨?_, generate_risks_nodup d⟩
  unfold generate_risks
  rw [keyword_scan_eq_filter_map]

/-- C3: for every input, generate_risks returns at least 3 entries and its first
three entries are exactly the fixed baseline risks in fixed order. -/
theorem baseline_risks_first (d : String) :
    3 ≤ (generate_risks d).length ∧
      (generate_risks d).take 3 =
        [⟨"Performance issues with large datasets", "Medium", "Medium"⟩,
         ⟨"Security vulnerabilities in user input handling", "High", "Medium"⟩,
         ⟨"Insufficient error handling causing poor user experience", "Medium", "High"⟩] := by
  constructor
  · unfold generate_risks
    rw [List.length_append]
    exact Nat.le_add_right 3 _
  · rfl

/-- C4: generate_user_stories always returns a non-empty list, and on input made
only of whitespace it returns exactly the single default story. -/
theorem stories_nonempty_default (d : String) :
    generate_user_stories d ≠ [] ∧
      ((∀ c ∈ d.data, isPySpace c = true) →
        generate_user_stories d =
          ["As a user, I want to use the system so that I can accomplish my tasks."]) := by
  constructor
  · unfold generate_user_stories
    split
    · simp
    · rename_i hne
      simpa [List.isEmpty_iff] using hne
  · intro hw
    have hnil : (reSplitDots d).filterMap story_of_sentence = [] := by
      apply List.filterMap_eq_nil_iff.mpr
      intro seg hseg
      have hchars : ∀ c ∈ seg, isPySpace c = true := by
        intro c hc
        rcases splitDotsGo_mem_chars d.data [] false seg hseg c hc with h1 | h1
        · exact hw c h1
        · cases h1
      simp [story_of_sentence, pyStrip_eq_nil seg hchars]
    unfold generate_user_stories
    rw [hnil]
    rfl

/-- C4 (witness): on three spaces the default story comes back alone. -/
theorem stories_nonempty_default_witness :
    generate_user_stories "   " =
      ["As a user, I want to use the system so that I can accomplish my tasks."] :=
  (stories_nonempty_default "   ").2 (by decide)

/-- C5: extract_entities always returns a non-empty list, and when no table keyword
occurs in the lower-cased input it returns exactly the single default System entity. -/
theorem extract_nonempty_default (d : String) :
    extract_entities d ≠ [] ∧
      ((∀ p ∈ entity_patterns, hasSub (pyLower d.data) p.1.data = false) →
        extract_entities d =
          [⟨"System", "Handle core business logic and user interactions"⟩]) := by
  constructor
  · unfold extract_entities
    split
    · simp
    · rename_i hne
      simpa [List.isEmpty_iff] using hne
  · intro hw
    have hnil : extract_entities_matches d = [] := by
      apply List.filterMap_eq_nil_iff.mpr
      intro p hp
      simp [hw p hp]
    unfold extract_entities
    rw [hnil]
    rfl

/-- C5 (witness): the input "qz" contains no table keyword and yields the default
System entity. -/
theorem extract_nonempty_default_witness :
    extract_entities "qz" =
      [⟨"System", "Handle core business logic and user interactions"⟩] :=
  (extract_nonempty_default "qz").2 (by decide)

/-- C6: whenever the lower-cased input contains the substring "payment", the output
of generate_risks holds the payment-gateway risk exactly once, however often the
keyword occurs. -/
theorem payment_risk_exactly_once (d : String)
    (h : hasSub (pyLower d.data) ("payment").data = true) :
    (generate_risks d).count ⟨"Payment gateway integration failure", "High", "Low"⟩ = 1 := by
  unfold generate_risks
  rw [List.count_append]
  rw [show generic_risks.count
      (⟨"Payment gateway integration failure", "High", "Low"⟩ : Risk) = 0 from by decide]
  rw [Nat.zero_add]
  rw [show keyword_risks =
      ("payment", (⟨"Payment gateway integration failure", "High", "Low"⟩ : Risk)) ::
        keyword_risks.tail from rfl]
  simp only [List.filterMap_cons, h, if_true]
  rw [List.count_cons_self]
  rw [count_keyword_scan_zero _ _ keyword_risks.tail (by decide)]

/-- C6 (witness): the input "payment payment" triggers the payment risk once. -/
theorem payment_risk_exactly_once_witness :
    (generate_risks "payment payment").count
      ⟨"Payment gateway integration failure", "High", "Low"⟩ = 1 :=
  payment_risk_exactly_once "payment payment" (by decide)

/-- C7: whenever the lower-cased input contains the substring "database", the
entity table yields a "Database" entity and the independent risk table yields the
database-corruption risk. -/
theorem database_tables_independent (d : String)
    (h : hasSub (pyLower d.data) ("database").data = true) :
    (∃ e ∈ extract_entities d, e.entity = "Database") ∧
      (⟨"Database corruption or data loss", "High", "Low"⟩ : Risk) ∈ generate_risks d := by
  constructor
  · have hmem : (⟨"Database",
        "Store data, handle queries, ensure integrity, manage backups"⟩ : Entity) ∈
          extract_entities_matches d := by
      apply List.mem_filterMap.mpr
      refine ⟨("database", "Store data, handle queries, ensure integrity, manage backups"),
        by decide, ?_⟩
      simp [h]
      rfl
    have hne : (extract_entities_matches d).isEmpty = false := by
      cases hE : extract_entities_matches d with
      | nil => rw [hE] at hmem; cases hmem
      | cons a t => rfl
    refine ⟨⟨"Database", "Store data, handle queries, ensure integrity, manage backups"⟩,
      ?_, rfl⟩
    unfold extract_entities
    rw [hne]
    exact hmem
  · unfold generate_risks
    apply List.mem_append_right
    apply List.mem_filterMap.mpr
    refine ⟨("database", ⟨"Database corruption or data loss", "High", "Low"⟩), by decide, ?_⟩
    simp [h]

/-- C7 (witness): the input "a database app" produces both table entries. -/
theorem database_tables_independent_witness :
    (∃ e ∈ extract_entities "a database app", e.entity = "Database") ∧
      (⟨"Database corruption or data loss", "High", "Low"⟩ : Risk) ∈
        generate_risks "a database app" :=
  database_tables_independent "a database app" (by decide)

/-- C8: with no analysis in the session, the results route and the stories-export
route both redirect to the index page instead of rendering or exporting. -/
theorem no_analysis_redirects :
    results none = RouteResponse.redirectIndex ∧
      export_stories_pdf none = RouteResponse.redirectIndex :=
  ⟨rfl, rfl⟩

/-- C9: the three core functions are deterministic — identical input yields
identical output (each is a pure function of its input text in the embedding). -/
theorem core_functions_deterministic (d₁ d₂ : String) (h : d₁ = d₂) :
    generate_user_stories d₁ = generate_user_stories d₂ ∧
      extract_entities d₁ = extract_entities d₂ ∧
      generate_risks d₁ = generate_risks d₂ := by
  subst h
  exact ⟨rfl, rfl, rfl⟩

/-- C9 (witness): two invocations on the input "login" agree. -/
theorem core_functions_deterministic_witness :
    generate_user_stories "login" = generate_user_stories "login" ∧
      extract_entities "login" = extract_entities "login" ∧
      generate_risks "login" = generate_risks "login" :=
  core_functions_deterministic "login" "login" rfl

/-- C10: every string generate_user_stories returns is the fixed template wrapped
around some action, or exactly the default story. -/
theorem stories_template_shape (d : String) (s : String)
    (hs : s ∈ generate_user_stories d) :
    (∃ action : String,
        s = "As a user, I want to " ++ action ++
          " so that I can accomplish my goals efficiently.") ∨
      s = "As a user, I want to use the system so that I can accomplish my tasks." := by
  unfold generate_user_stories at hs
  split at hs
  · right
    simpa using hs
  · left
    rcases List.mem_filterMap.mp hs with ⟨seg, _, hseg⟩
    unfold story_of_sentence at hseg
    split at hseg
    · exact Option.noConfusion hseg
    · refine ⟨(stripFiller (pyLower (pyStrip seg))).asString, ?_⟩
      rw [← Option.some_inj.mp hseg]
      rfl

/-- C10 (witness): the default story on empty input has the allowed shape. -/
theorem stories_template_shape_witness :
    (∃ action : String,
        "As a user, I want to use the system so that I can accomplish my tasks." =
          "As a user, I want to " ++ action ++
            " so that I can accomplish my goals efficiently.") ∨
      "As a user, I want to use the system so that I can accomplish my tasks." =
        "As a user, I want to use the system so that I can accomplish my tasks." :=
  stories_template_shape ""
    "As a user, I want to use the system so that I can accomplish my tasks." (by decide)
